import Mathlib

/-!
Verification of the homebridge-meross device-adapter core: a shallow
embedding of the lightbulb controller (src/unnamed/part_000,
`deviceLocalLightbulb`) and the humidifier controller
(src/lib/device/humidifier.js, `deviceHumidifier`).

Each characteristic write handler (`internalStateUpdate`,
`internalBrightnessUpdate`, `internalColourUpdate`, `internalCTUpdate`,
`internalFanStateUpdate`, `internalFanSpeedUpdate`) is embedded as a pure
function from the cache fields it reads, the write-intent value, and the
outcome of the (external) device send, to a `WriteResult` recording the
commands sent, the cache after the call, whether a log line ran, the hub
error raised, and any delayed hub-visible characteristic push
(`setTimeout(..., 2000)`).  The poll merge paths (`requestDeviceUpdate`
for the bulb, `applyUpdate` for the humidifier) are embedded as functions
from caches and the parsed digest to new caches plus the list of
hub-visible characteristic emissions.
-/

namespace Meross

/-- JavaScript primitive values, as far as this code manipulates them:
booleans, (integer) numbers and strings.  Needed because the source
compares values of different runtime types with strict (in)equality
(`this.cacheState !== 'on'`, `this.cacheState !== newBright`). -/
inductive JSVal where
  | vBool : Bool → JSVal
  | vNum : Int → JSVal
  | vStr : String → JSVal
deriving DecidableEq

/-- JavaScript strict equality `===` on primitives: value equality within
one type, always false across distinct types. -/
def jsStrictEq (a b : JSVal) : Bool := a == b

/-- An exact (unreduced) fraction: the value of a JavaScript arithmetic
expression carried as `num / den`, with `den` kept positive by
construction.  All arithmetic reached in this code stays far enough from
half-way points that binary floating point and exact arithmetic round
identically. -/
structure Frac where
  num : ℤ
  den : ℤ
deriving DecidableEq

/-- Embed an integer. -/
def Frac.ofInt (n : ℤ) : Frac := ⟨n, 1⟩

/-- Exact subtraction. -/
def Frac.sub (a b : Frac) : Frac :=
  ⟨a.num * b.den - b.num * a.den, a.den * b.den⟩

/-- Exact addition of an integer. -/
def Frac.addInt (a : Frac) (k : ℤ) : Frac := ⟨a.num + k * a.den, a.den⟩

/-- Exact division by a positive integer. -/
def Frac.divInt (a : Frac) (k : ℤ) : Frac := ⟨a.num, a.den * k⟩

/-- Exact multiplication by an integer. -/
def Frac.mulInt (a : Frac) (k : ℤ) : Frac := ⟨a.num * k, a.den⟩

/-- JavaScript `Math.round` on the exact rational value of its argument
(round half toward positive infinity): `⌊q + 1/2⌋`, computed on the
fraction. -/
def jsRound (q : Frac) : ℤ := (2 * q.num + q.den) / (2 * q.den)

/-- Payload of the `Appliance.Control.ToggleX` namespace
(`internalStateUpdate`). -/
structure TogglexPayload where
  onoff : Nat
  channel : Nat
deriving DecidableEq

/-- Payload of the `Appliance.Control.Light` namespace: each of the four
keys is present in some handlers and absent in others. -/
structure LightPayload where
  luminance : Option Int
  capacity : Option Nat
  rgb : Option Nat
  temperature : Option Int
deriving DecidableEq

/-- Payload of the `Appliance.Control.Spray` namespace (humidifier). -/
structure SprayPayload where
  mode : Nat
  channel : Nat
deriving DecidableEq

/-- A command payload sent to the device, tagged by namespace. -/
inductive Payload where
  | togglex : TogglexPayload → Payload
  | light : LightPayload → Payload
  | spray : SprayPayload → Payload
deriving DecidableEq

/-- Shape of a resolved response `res` from `sendLocalDeviceUpdate`, as far
as the lightbulb handlers inspect it: `res.data` present, `res.data.header`
present, and whether `res.data.header.method === 'ERROR'`. -/
structure Response where
  hasData : Bool
  hasHeader : Bool
  methodIsError : Bool
deriving DecidableEq

/-- The lightbulb handlers' response check (negation of
`!res.data || !res.data.header || res.data.header.method === 'ERROR'`). -/
def responseValid (r : Response) : Bool :=
  r.hasData && r.hasHeader && !r.methodIsError

/-- Outcome of awaiting the platform send: either the promise resolves
with a response, or it rejects (transport error, or the 10 s queue
timeout). -/
inductive SendOutcome where
  | ok : Response → SendOutcome
  | err : SendOutcome
deriving DecidableEq

/-- A response that passes the lightbulb validity check. -/
def okResponse : Response :=
  { hasData := true, hasHeader := true, methodIsError := false }

/-- Observable result of one characteristic write handler call.
`α` is the type of the cache field owned by the handler. -/
structure WriteResult (α : Type) where
  /-- Device commands sent (or attempted) during the call, in order. -/
  sent : List Payload
  /-- The handler's cache field after the call returns. -/
  cacheAfter : α
  /-- Whether any log line ran (with logging enabled). -/
  logged : Bool
  /-- Hub error status raised by the handler (`throw new this.hapErr(..)`). -/
  errorRaised : Option Int
  /-- Delayed hub-visible characteristic push: `(delay in ms, value)`. -/
  revert : Option (Nat × α)
deriving DecidableEq

/-- The silent early-return result: nothing sent, nothing logged, no
error, no delayed push, cache untouched. -/
def noopResult {α : Type} (cache : α) : WriteResult α :=
  { sent := [], cacheAfter := cache, logged := false,
    errorRaised := none, revert := none }

/-- The catch-block result shared by all write handlers: warn log, cache
untouched, `setTimeout(.., 2000)` pushing `revertValue` back to the
characteristic, and `throw new this.hapErr(-70402)`. -/
def failResult {α : Type} (ps : List Payload) (cache revertValue : α) :
    WriteResult α :=
  { sent := ps, cacheAfter := cache, logged := true,
    errorRaised := some (-70402), revert := some (2000, revertValue) }

/-- A call that was silently abandoned: sent nothing, logged nothing,
raised no error, pushed nothing back, left the cache unchanged. -/
def IsNoop {α : Type} (r : WriteResult α) (cache : α) : Prop :=
  r.sent = [] ∧ r.cacheAfter = cache ∧ r.logged = false ∧
    r.errorRaised = none ∧ r.revert = none

/-- A call that failed: cache unchanged, the cached (hub-domain) value
pushed back to the characteristic after exactly 2000 ms, and the fixed
hub error -70402 raised. -/
def IsFailureRevert {α : Type} (r : WriteResult α) (cache : α)
    (hubValue : α) : Prop :=
  r.cacheAfter = cache ∧ r.revert = some (2000, hubValue) ∧
    r.errorRaised = some (-70402)

instance {α : Type} [DecidableEq α] (r : WriteResult α) (c : α) :
    Decidable (IsNoop r c) :=
  inferInstanceAs (Decidable (r.sent = [] ∧ r.cacheAfter = c ∧
    r.logged = false ∧ r.errorRaised = none ∧ r.revert = none))

instance {α : Type} [DecidableEq α] (r : WriteResult α) (c hub : α) :
    Decidable (IsFailureRevert r c hub) :=
  inferInstanceAs (Decidable (r.cacheAfter = c ∧
    r.revert = some (2000, hub) ∧ r.errorRaised = some (-70402)))

/-! ### Lightbulb write handlers (src/unnamed/part_000) -/

/-- `deviceLocalLightbulb.internalStateUpdate` (lines 96-145): no-op
short-circuit against `cacheState`, ToggleX payload, response check,
cache commit on success, revert-and-raise on failure. -/
def internalStateUpdate (value cacheState : Bool) (channel : Nat)
    (outcome : SendOutcome) : WriteResult Bool :=
  if value = cacheState then noopResult cacheState
  else
    let payload := Payload.togglex
      { onoff := if value then 1 else 0, channel := channel }
    match outcome with
    | SendOutcome.ok res =>
      if responseValid res then
        { sent := [payload], cacheAfter := value, logged := true,
          errorRaised := none, revert := none }
      else failResult [payload] cacheState cacheState
    | SendOutcome.err => failResult [payload] cacheState cacheState

/-- `deviceLocalLightbulb.internalBrightnessUpdate` (lines 147-214):
no-op short-circuit, then the debounce gate (a fresh random `updateKey`
is stored into `this.updateKeyBright`; after `sleep(300)` the handler
proceeds only if its key is still the stored one — `myToken` is this
call's key, `currentToken` the stored key at wake-up), then the Light
payload (`capacity: 4` only on colour-capable models). -/
def internalBrightnessUpdate (value cacheBright : Int)
    (isColourModel : Bool) (myToken currentToken : Nat)
    (outcome : SendOutcome) : WriteResult Int :=
  if cacheBright = value then noopResult cacheBright
  else if myToken ≠ currentToken then noopResult cacheBright
  else
    let payload := Payload.light
      { luminance := some value,
        capacity := if isColourModel then some 4 else none,
        rgb := none, temperature := none }
    match outcome with
    | SendOutcome.ok res =>
      if responseValid res then
        { sent := [payload], cacheAfter := value, logged := true,
          errorRaised := none, revert := none }
      else failResult [payload] cacheBright cacheBright
    | SendOutcome.err => failResult [payload] cacheBright cacheBright

/-- `deviceLocalLightbulb.internalColourUpdate` (lines 216-289): no-op
short-circuit against `cacheHue`, debounce gate, RGB packing
`(r << 16) + (g << 8) + b` of the externally converted `hs2rgb` triple
`(r, g, b)`, Light payload with `capacity: 1` and the cached brightness.
The result tracks the hue cache; on success the saturation cache is also
refreshed from live hub state (not tracked here). -/
def internalColourUpdate (value cacheHue : Int) (cacheBright : Int)
    (r g b : Nat) (myToken currentToken : Nat) (outcome : SendOutcome) :
    WriteResult Int :=
  if cacheHue = value then noopResult cacheHue
  else if myToken ≠ currentToken then noopResult cacheHue
  else
    let rgbD := (r <<< 16) + (g <<< 8) + b
    let payload := Payload.light
      { luminance := some cacheBright, capacity := some 1,
        rgb := some rgbD, temperature := none }
    match outcome with
    | SendOutcome.ok res =>
      if responseValid res then
        { sent := [payload], cacheAfter := value, logged := true,
          errorRaised := none, revert := none }
      else failResult [payload] cacheHue cacheHue
    | SendOutcome.err => failResult [payload] cacheHue cacheHue

/-- Mired-to-device-temperature conversion of `internalCTUpdate`
(lines 323-328): `round(((360 - (mired - 140)) / 360) * 100)` with a
computed 0 coerced to 1. -/
def mired2merossTemp (value : ℤ) : ℤ :=
  let t := jsRound
    ((((Frac.ofInt 360).sub (Frac.ofInt (value - 140))).divInt 360).mulInt
      100)
  if t = 0 then 1 else t

/-- Device-temperature-to-mired conversion of `requestDeviceUpdate`
(lines 472-476): `round(140 + (360 - (temp / 100) * 360))`. -/
def merossTemp2mired (t : ℤ) : ℤ :=
  jsRound
    (((Frac.ofInt 360).sub (((Frac.ofInt t).divInt 100).mulInt 360)).addInt
      140)

/-- `deviceLocalLightbulb.internalCTUpdate` (lines 291-366): no-op
short-circuit against `cacheMired`, debounce gate, then the guard
`if (this.cacheState !== 'on' || this.cacheMired === value) return` —
note `cacheState` holds a boolean at runtime, compared strictly against
the string literal, so the guard is modelled with `jsStrictEq` on
`JSVal`.  Past the guard: Light payload with the converted temperature
and `capacity: 2`. -/
def internalCTUpdate (value cacheMired : Int) (cacheState : JSVal)
    (myToken currentToken : Nat) (outcome : SendOutcome) :
    WriteResult Int :=
  if cacheMired = value then noopResult cacheMired
  else if myToken ≠ currentToken then noopResult cacheMired
  else if jsStrictEq cacheState (JSVal.vStr "on") = false ∨
      cacheMired = value then noopResult cacheMired
  else
    let payload := Payload.light
      { luminance := none, capacity := some 2, rgb := none,
        temperature := some (mired2merossTemp value) }
    match outcome with
    | SendOutcome.ok res =>
      if responseValid res then
        { sent := [payload], cacheAfter := value, logged := true,
          errorRaised := none, revert := none }
      else failResult [payload] cacheMired cacheMired
    | SendOutcome.err => failResult [payload] cacheMired cacheMired

/-! ### Humidifier (src/lib/device/humidifier.js) -/

/-- `hk2mr` (lines 36-44): HomeKit rotation speed to Meross spray mode. -/
def hk2mr (speed : Nat) : Nat :=
  if speed = 0 then 0 else if speed ≤ 75 then 2 else 1

/-- `hk2Label` (lines 45-53): HomeKit rotation speed to log label. -/
def hk2Label (speed : Nat) : String :=
  if speed = 0 then "off" else if speed ≤ 75 then "intermittent"
  else "continuous"

/-- `mr2hk` (lines 54-62): Meross spray mode to HomeKit rotation speed. -/
def mr2hk (speed : Nat) : Nat :=
  if speed = 0 then 0 else if speed = 1 then 100 else 50

/-- The quantisation at the top of `internalFanSpeedUpdate`
(lines 168-175): "Some homekit apps might not support the valid values
of 0, 50 and 100". -/
def quantizeSpeed (value : Nat) : Nat :=
  if value = 0 then 0 else if value ≤ 75 then 50 else 100

/-- The `validValues` the fan's RotationSpeed characteristic is
registered with via `setProps` (lines 77-80). -/
def rotationSpeedValidValues : List Nat := [0, 50, 100]

/-- `deviceHumidifier.internalFanStateUpdate` (lines 120-162): no-op
short-circuit against `cacheFanState`, Spray payload with
`mode: value ? Math.max(this.cacheFanSpeed, 1) : 0`.  The humidifier's
`sendUpdate` result is not inspected: any resolved response counts as
success; only a rejection (transport error / timeout) fails. -/
def internalFanStateUpdate (value cacheFanState : Bool)
    (cacheFanSpeed : Nat) (outcome : SendOutcome) : WriteResult Bool :=
  if value = cacheFanState then noopResult cacheFanState
  else
    let payload := Payload.spray
      { mode := if value then max cacheFanSpeed 1 else 0, channel := 0 }
    match outcome with
    | SendOutcome.ok _ =>
      { sent := [payload], cacheAfter := value, logged := true,
        errorRaised := none, revert := none }
    | SendOutcome.err => failResult [payload] cacheFanState cacheFanState

/-- `deviceHumidifier.internalFanSpeedUpdate` (lines 164-231): quantise
the incoming speed, map it with `hk2mr`, no-op short-circuit against
`cacheFanSpeed` (which stores the device mode), Spray payload.  On
success with quantised value 0 the cache is left alone and the previous
hub speed is pushed back after 2000 ms; otherwise the cache becomes the
sent mode.  On failure the hub speed `mr2hk cacheFanSpeed` is pushed
back after 2000 ms and -70402 is raised. -/
def internalFanSpeedUpdate (value0 cacheFanSpeed : Nat)
    (outcome : SendOutcome) : WriteResult Nat :=
  let value := quantizeSpeed value0
  let mrVal := hk2mr value
  if mrVal = cacheFanSpeed then noopResult cacheFanSpeed
  else
    let payload := Payload.spray { mode := mrVal, channel := 0 }
    match outcome with
    | SendOutcome.ok _ =>
      if value = 0 then
        { sent := [payload], cacheAfter := cacheFanSpeed, logged := false,
          errorRaised := none,
          revert := some (2000, mr2hk cacheFanSpeed) }
      else
        { sent := [payload], cacheAfter := mrVal, logged := true,
          errorRaised := none, revert := none }
    | SendOutcome.err =>
      failResult [payload] cacheFanSpeed (mr2hk cacheFanSpeed)

/-- A sequence of fan-speed writes arriving back to back: the queue
(`concurrency: 1`) runs them one after the other — `internalFanSpeedUpdate`
contains no debounce gate, so each runs to completion with the device
responding successfully.  Returns the final `cacheFanSpeed` and every
command sent. -/
def runFanSpeedSeq (cacheFanSpeed : Nat) (writes : List Nat) :
    Nat × List Payload :=
  match writes with
  | [] => (cacheFanSpeed, [])
  | v :: rest =>
    let r := internalFanSpeedUpdate v cacheFanSpeed
      (SendOutcome.ok okResponse)
    let next := runFanSpeedSeq r.cacheAfter rest
    (next.1, r.sent ++ next.2)

/-! ### Poll scheduling (both constructors) -/

/-- What a constructor schedules for the poll/reconcile loop. -/
structure ScheduleResult where
  /-- Whether the constructor fires one poll immediately at startup. -/
  startupPoll : Bool
  /-- `some period` (ms) when a periodic timer is installed. -/
  pollTimer : Option Nat
deriving DecidableEq

/-- `deviceLocalLightbulb` constructor, lines 79-86: always one startup
poll; `setInterval` only when `config.refreshRate > 0`. -/
def lightbulbSchedule (refreshRate : Nat) : ScheduleResult :=
  { startupPoll := true,
    pollTimer :=
      if 0 < refreshRate then some (refreshRate * 1000) else none }

/-- `deviceHumidifier` constructor, lines 105-110: always one startup
poll (`requestUpdate(true)`), then `setInterval` unconditionally with
the resolved poll interval. -/
def humidifierSchedule (pollInterval : Nat) : ScheduleResult :=
  { startupPoll := true, pollTimer := some (pollInterval * 1000) }

/-! ### Poll / push merge -/

/-- A hub-visible characteristic update
(`service.updateCharacteristic(...)`). -/
inductive Emission where
  | charOn : Bool → Emission
  | charBrightness : Int → Emission
  | charHue : Int → Emission
  | charSaturation : Int → Emission
  | charColorTemperature : Int → Emission
  | charRotationSpeed : Nat → Emission
deriving DecidableEq

/-- The lightbulb's per-characteristic caches as they exist at runtime.
`cacheState` is a `JSVal` because the poll merge assigns a number into
it (see `requestDeviceUpdateMerge`). -/
structure BulbCaches where
  cacheState : JSVal
  cacheBright : Int
  cacheHue : Int
  cacheSat : Int
  cacheMired : Int
deriving DecidableEq

/-- The parsed light digest of a poll response
(`data.payload.all.digest`, non-MSS1101 branch): the
`togglex[channel].onoff` field, and the `light` sub-object's
`luminance`, `rgb`-presence and `temperature` fields. -/
structure LightDigest where
  togglexOnoff : Option Nat
  luminance : Option Int
  rgbPresent : Bool
  temperature : Option Int
deriving DecidableEq

/-- The digest merge of `deviceLocalLightbulb.requestDeviceUpdate`
(lines 394-497, non-MSS1101 branch), faithful to two slips in the
source: (1) the luminance branch compares the reported brightness
against `this.cacheState` and assigns it into `this.cacheState`
(lines 431-433); (2) the rgb branch reads
`this.deviceStatus.payload...` where `this.deviceStatus` is never
assigned, so a digest carrying an `rgb` key throws a TypeError there,
aborting the rest of the merge (the exception is swallowed by the
surrounding catch).  Returns the caches after the merge and the
hub-visible emissions, in order. -/
def requestDeviceUpdateMerge (s : BulbCaches) (d : LightDigest) :
    BulbCaches × List Emission :=
  let step1 :=
    match d.togglexOnoff with
    | none => (s, ([] : List Emission))
    | some onoff =>
      let newState := onoff == 1
      if jsStrictEq s.cacheState (JSVal.vBool newState) then (s, [])
      else ({ s with cacheState := JSVal.vBool newState },
        [Emission.charOn newState])
  let s1 := step1.1
  let step2 :=
    match d.luminance with
    | none => (s1, ([] : List Emission))
    | some newBright =>
      if jsStrictEq s1.cacheState (JSVal.vNum newBright) then (s1, [])
      else ({ s1 with cacheState := JSVal.vNum newBright },
        [Emission.charBrightness newBright])
  let s2 := step2.1
  if d.rgbPresent then (s2, step1.2 ++ step2.2)
  else
    let step3 :=
      match d.temperature with
      | none => (s2, ([] : List Emission))
      | some t =>
        let mired := merossTemp2mired t
        if s2.cacheMired = mired then (s2, [])
        else ({ s2 with cacheMired := mired },
          [Emission.charColorTemperature mired])
    (step3.1, step1.2 ++ step2.2 ++ step3.2)

/-- The humidifier's caches touched by its merge. -/
structure HumCaches where
  cacheFanSpeed : Nat
  cacheFanState : Bool
deriving DecidableEq

/-- `deviceHumidifier.applyUpdate` (lines 340-373): merge the reported
`spray[0].mode` (when present) into the caches, emitting hub updates
only when the reported mode differs from `cacheFanSpeed`. -/
def applyUpdate (s : HumCaches) (sprayMode : Option Nat) :
    HumCaches × List Emission :=
  match sprayMode with
  | none => (s, [])
  | some newSpeed =>
    if s.cacheFanSpeed = newSpeed then (s, [])
    else if newSpeed = 0 then
      ({ cacheFanSpeed := newSpeed, cacheFanState := false },
        [Emission.charOn false])
    else
      let onEmit :=
        if s.cacheFanState then ([] : List Emission)
        else [Emission.charOn true]
      ({ cacheFanSpeed := newSpeed, cacheFanState := true },
        onEmit ++ [Emission.charRotationSpeed (mr2hk newSpeed)])

/-! ### RGB packing / unpacking -/

/-- RGB packing of `internalColourUpdate` (line 246):
`(r << 16) + (g << 8) + b`. -/
def packRGB (r g b : Nat) : Nat := (r <<< 16) + (g <<< 8) + b

/-- Red extraction of `requestDeviceUpdate` (line 441). -/
def unpackR (rgb : Nat) : Nat := (rgb &&& 0xff0000) >>> 16

/-- Green extraction of `requestDeviceUpdate` (line 442). -/
def unpackG (rgb : Nat) : Nat := (rgb &&& 0x00ff00) >>> 8

/-- Blue extraction of `requestDeviceUpdate` (line 443). -/
def unpackB (rgb : Nat) : Nat := rgb &&& 0x0000ff

/-- A lightbulb send attempt that failed: the promise rejected
(transport error or queue timeout), or it resolved with a response that
fails the handlers' validity check (a protocol failure). -/
def BulbSendFailed (o : SendOutcome) : Prop :=
  o = SendOutcome.err ∨
    ∃ res, o = SendOutcome.ok res ∧ responseValid res = false

/-- A poll digest `{togglex: [{onoff: 1}], light: {luminance: 55}}`:
device on, brightness 55. -/
def idemDigest : LightDigest :=
  { togglexOnoff := some 1, luminance := some 55, rgbPresent := false,
    temperature := none }

/-- Caches already agreeing with `idemDigest`: device on, brightness 55
cached. -/
def idemCaches : BulbCaches :=
  { cacheState := JSVal.vBool true, cacheBright := 55, cacheHue := 0,
    cacheSat := 0, cacheMired := 200 }

/-!
## Theorems

General lemmas about the embedding first, then one theorem per claim of
the specification (with its witness or counterexample where needed).
-/

/-- `jsRound` is indeed `⌊· + 1/2⌋` of the fraction's rational value,
i.e. JavaScript `Math.round` (round half up) on the exact value. -/
theorem jsRound_eq_floor (q : Frac) (h : 0 < q.den) :
    jsRound q = ⌊(q.num : ℚ) / (q.den : ℚ) + 1 / 2⌋ := by
  have hden : (((2 * q.den).toNat : ℕ) : ℚ) = 2 * (q.den : ℚ) := by
    have h2 : ((2 * q.den).toNat : ℤ) = 2 * q.den := by omega
    exact_mod_cast congrArg (fun z : ℤ => (z : ℚ)) h2
  have hq : (q.den : ℚ) ≠ 0 := by
    exact_mod_cast (by omega : q.den ≠ 0)
  have key : (q.num : ℚ) / (q.den : ℚ) + 1 / 2
      = ((2 * q.num + q.den : ℤ) : ℚ) / (((2 * q.den).toNat : ℕ) : ℚ) := by
    rw [hden]
    push_cast
    field_simp
    ring
  rw [key, Rat.floor_intCast_div_natCast,
    (by omega : ((2 * q.den).toNat : ℤ) = 2 * q.den)]
  rfl

/-- JavaScript strict equality between a boolean and a string is always
false, whatever the operands. -/
theorem jsStrictEq_vBool_vStr (b : Bool) (s : String) :
    jsStrictEq (JSVal.vBool b) (JSVal.vStr s) = false := by
  simp [jsStrictEq]

/-- Masking with a block of ones shifted by `m` keeps exactly bits
`m .. m+k-1`: the arithmetic reading of the RGB extraction masks. -/
theorem and_mask_shift (x k m : Nat) :
    x &&& ((2 ^ k - 1) <<< m) = ((x >>> m) % 2 ^ k) <<< m := by
  apply Nat.eq_of_testBit_eq
  intro j
  simp only [Nat.testBit_and, Nat.testBit_shiftLeft, Nat.testBit_shiftRight,
    Nat.testBit_mod_two_pow, Nat.testBit_two_pow_sub_one]
  by_cases hj : m ≤ j
  · have hmj : m + (j - m) = j := by omega
    simp [hj, hmj, Bool.and_comm]
  · simp [hj]

/-- C1 (counterexample): the claim says that of any burst of writes to
one characteristic only the last sends a command and every earlier write
sends nothing.  The humidifier's fan-speed handler — cited by the claim —
has no debounce gate at all: two back-to-back fan-speed writes 60 then
100 starting from cached mode 0 send two spray commands (mode 2 then
mode 1), the first of which the claim says must be abandoned. -/
theorem fanspeed_burst_sends_two_commands :
    (runFanSpeedSeq 0 [60, 100]).2 =
      [Payload.spray { mode := 2, channel := 0 },
       Payload.spray { mode := 1, channel := 0 }] ∧
    (runFanSpeedSeq 0 [60, 100]).2.length = 2 := by decide

/-- C1 (amended): for the lightbulb's debounced characteristics
(brightness, hue, colour temperature), a write whose token was
superseded during its 300 ms wait is abandoned silently — no command, no
log, no error, cache untouched — and a brightness write still holding
the current token (the last of the burst) proceeds to send exactly one
command.  The lightbulb power handler and the humidifier handlers have
no debounce gate (see the counterexample). -/
theorem debounce_last_write_wins
    (bv cacheB huev cacheH cbright mv cacheM : Int) (cm : Bool)
    (r g b : Nat) (st : JSVal) (myT curT : Nat) (outcome : SendOutcome) :
    (myT ≠ curT →
      IsNoop (internalBrightnessUpdate bv cacheB cm myT curT outcome)
        cacheB ∧
      IsNoop (internalColourUpdate huev cacheH cbright r g b myT curT
        outcome) cacheH ∧
      IsNoop (internalCTUpdate mv cacheM st myT curT outcome) cacheM) ∧
    (myT = curT → bv ≠ cacheB →
      (internalBrightnessUpdate bv cacheB cm myT curT outcome).sent =
        [Payload.light { luminance := some bv,
                         capacity := if cm then some 4 else none,
                         rgb := none, temperature := none }]) := by
  constructor
  · intro h
    refine ⟨?_, ?_, ?_⟩
    · simp [internalBrightnessUpdate, h, IsNoop, noopResult, ite_self]
    · simp [internalColourUpdate, h, IsNoop, noopResult, ite_self]
    · simp [internalCTUpdate, h, IsNoop, noopResult, ite_self]
  · intro h hne
    unfold internalBrightnessUpdate
    rw [if_neg (fun hc => hne hc.symm), if_neg (by simpa using h)]
    cases outcome with
    | ok res =>
      by_cases hv : responseValid res <;> simp [hv, failResult]
    | err => simp [failResult]

/-- C1 (witness): a superseded brightness write (token 1, current token
2) is a silent no-op; the write holding the current token sends its one
command. -/
theorem debounce_last_write_wins_witness :
    IsNoop (internalBrightnessUpdate 55 40 false 1 2
      (SendOutcome.ok okResponse)) 40 ∧
    (internalBrightnessUpdate 55 40 false 3 3
      (SendOutcome.ok okResponse)).sent =
      [Payload.light { luminance := some 55, capacity := none,
                       rgb := none, temperature := none }] := by
  constructor
  · exact ((debounce_last_write_wins 55 40 0 0 0 0 0 false 0 0 0
      (JSVal.vBool false) 1 2 (SendOutcome.ok okResponse)).1
        (by decide)).1
  · have h := (debounce_last_write_wins 55 40 0 0 0 0 0 false 0 0 0
      (JSVal.vBool false) 3 3 (SendOutcome.ok okResponse)).2
        rfl (by decide)
    simpa using h

/-- C2: in every write handler (lightbulb power, brightness, hue, colour
temperature; humidifier fan state, fan speed), a write whose target
equals the current cached value returns before anything happens: no
command sent, no log, no error, cache and hub-visible state untouched.
For the fan speed the cache stores the device mode, so "target equals
cache" means the target equals the hub-domain value `mr2hk` of the
cached mode. -/
theorem noop_write_is_silent :
    ∀ (outcome : SendOutcome),
      (∀ (v : Bool) (ch : Nat),
        IsNoop (internalStateUpdate v v ch outcome) v) ∧
      (∀ (v : Int) (cm : Bool) (t t' : Nat),
        IsNoop (internalBrightnessUpdate v v cm t t' outcome) v) ∧
      (∀ (v cb : Int) (r g b t t' : Nat),
        IsNoop (internalColourUpdate v v cb r g b t t' outcome) v) ∧
      (∀ (v : Int) (st : JSVal) (t t' : Nat),
        IsNoop (internalCTUpdate v v st t t' outcome) v) ∧
      (∀ (v : Bool) (cs : Nat),
        IsNoop (internalFanStateUpdate v v cs outcome) v) ∧
      IsNoop (internalFanSpeedUpdate (mr2hk 0) 0 outcome) 0 ∧
      IsNoop (internalFanSpeedUpdate (mr2hk 1) 1 outcome) 1 ∧
      IsNoop (internalFanSpeedUpdate (mr2hk 2) 2 outcome) 2 := by
  intro outcome
  refine ⟨?_, ?_, ?_, ?_, ?_, ?_, ?_, ?_⟩
  · intro v ch; simp [internalStateUpdate, IsNoop, noopResult]
  · intro v cm t t'; simp [internalBrightnessUpdate, IsNoop, noopResult]
  · intro v cb r g b t t'; simp [internalColourUpdate, IsNoop, noopResult]
  · intro v st t t'; simp [internalCTUpdate, IsNoop, noopResult]
  · intro v cs; simp [internalFanStateUpdate, IsNoop, noopResult]
  · simp [internalFanSpeedUpdate, mr2hk, quantizeSpeed, hk2mr, IsNoop,
      noopResult]
  · simp [internalFanSpeedUpdate, mr2hk, quantizeSpeed, hk2mr, IsNoop,
      noopResult]
  · simp [internalFanSpeedUpdate, mr2hk, quantizeSpeed, hk2mr, IsNoop,
      noopResult]

/-- C3: whenever a write that actually sends fails — a rejected promise
(transport error / timeout) for any handler, or additionally an invalid
response (protocol failure) for the lightbulb handlers, which check the
response — the cache keeps its pre-write value, the cached hub-domain
value is pushed back to the hub-visible characteristic after exactly
2000 ms, and the fixed error code -70402 is raised. -/
theorem failed_write_reverts_and_raises
    (o : SendOutcome) (v c : Bool) (ch : Nat) (bv cb : Int) (cm : Bool)
    (hv chue cbright : Int) (r g b : Nat) (t : Nat) (fv fc : Bool)
    (fs sv cs : Nat) :
    (BulbSendFailed o →
      (v ≠ c → IsFailureRevert (internalStateUpdate v c ch o) c c) ∧
      (bv ≠ cb →
        IsFailureRevert (internalBrightnessUpdate bv cb cm t t o) cb cb) ∧
      (hv ≠ chue →
        IsFailureRevert (internalColourUpdate hv chue cbright r g b t t o)
          chue chue)) ∧
    (o = SendOutcome.err →
      (fv ≠ fc →
        IsFailureRevert (internalFanStateUpdate fv fc fs o) fc fc) ∧
      (hk2mr (quantizeSpeed sv) ≠ cs →
        IsFailureRevert (internalFanSpeedUpdate sv cs o) cs
          (mr2hk cs))) := by
  constructor
  · intro hfail
    refine ⟨fun hne => ?_, fun hne => ?_, fun hne => ?_⟩
    · unfold internalStateUpdate
      rw [if_neg hne]
      rcases hfail with h | ⟨res, rfl, hres⟩
      · subst h; simp [failResult, IsFailureRevert]
      · simp [hres, failResult, IsFailureRevert]
    · unfold internalBrightnessUpdate
      rw [if_neg (fun hc => hne hc.symm), if_neg (by simp)]
      rcases hfail with h | ⟨res, rfl, hres⟩
      · subst h; simp [failResult, IsFailureRevert]
      · simp [hres, failResult, IsFailureRevert]
    · unfold internalColourUpdate
      rw [if_neg (fun hc => hne hc.symm), if_neg (by simp)]
      rcases hfail with h | ⟨res, rfl, hres⟩
      · subst h; simp [failResult, IsFailureRevert]
      · simp [hres, failResult, IsFailureRevert]
  · rintro rfl
    refine ⟨fun hne => ?_, fun hne => ?_⟩
    · unfold internalFanStateUpdate
      rw [if_neg hne]
      simp [failResult, IsFailureRevert]
    · unfold internalFanSpeedUpdate
      simp only []
      rw [if_neg hne]
      simp [failResult, IsFailureRevert]

/-- C3 (witness): a failed power-on write and a failed fan-speed write
both revert and raise -70402. -/
theorem failed_write_reverts_and_raises_witness :
    IsFailureRevert
      (internalStateUpdate true false 0 SendOutcome.err) false false ∧
    IsFailureRevert
      (internalFanSpeedUpdate 60 0 SendOutcome.err) 0 (mr2hk 0) := by
  have h := failed_write_reverts_and_raises SendOutcome.err true false 0
    55 40 false 10 20 30 1 2 3 4 true false 0 60 0
  exact ⟨(h.1 (Or.inl rfl)).1 (by decide), (h.2 rfl).2 (by decide)⟩

/-- C4: the claim says the poll merge emits nothing when re-applied to a
state it was already applied to.  In the lightbulb merge the luminance
branch compares the reported brightness against — and assigns it into —
the power-state cache `cacheState` (source lines 431-433), so on the
digest `{togglex: [{onoff: 1}], light: {luminance: 55}}`, starting from
caches that already agree with it, the second application still emits an
On update and a Brightness update. -/
theorem poll_merge_not_idempotent :
    (requestDeviceUpdateMerge
      (requestDeviceUpdateMerge idemCaches idemDigest).1 idemDigest).2 =
      [Emission.charOn true, Emission.charBrightness 55] ∧
    (requestDeviceUpdateMerge
      (requestDeviceUpdateMerge idemCaches idemDigest).1 idemDigest).2 ≠
      [] := by decide

/-- C5: the claim says a colour-temperature write proceeds to send when
the device is on and the value differs from cache.  The handler's guard
`this.cacheState !== 'on'` strictly compares the boolean power cache
against a string, which is always true, so every colour-temperature
write — device on or off, value new or not — is silently dropped and no
command is ever sent. -/
theorem ct_write_never_sends (value cacheMired : Int) (b : Bool)
    (myT curT : Nat) (outcome : SendOutcome) :
    IsNoop (internalCTUpdate value cacheMired (JSVal.vBool b) myT curT
      outcome) cacheMired := by
  unfold internalCTUpdate
  simp [jsStrictEq_vBool_vStr, IsNoop, noopResult, ite_self]

/-- C6: converting a device temperature `x` in 1..100 to mired and back
returns `x`; the only exception is the 0-to-1 clamp, visible at `x = 0`
(out of the device range), whose round trip returns 1. -/
theorem ct_conversion_roundtrip (n : ℕ) (h : n < 100) :
    mired2merossTemp (merossTemp2mired ((n : ℤ) + 1)) = (n : ℤ) + 1 ∧
    mired2merossTemp (merossTemp2mired 0) = 1 :=
  ⟨(by decide : ∀ m : ℕ, m < 100 →
      mired2merossTemp (merossTemp2mired ((m : ℤ) + 1)) = (m : ℤ) + 1)
    n h, by decide⟩

/-- C6 (witness): the round trip at device temperature 60. -/
theorem ct_conversion_roundtrip_witness :
    59 < 100 ∧
    mired2merossTemp (merossTemp2mired ((59 : ℕ) + 1 : ℤ)) =
      ((59 : ℕ) + 1 : ℤ) := by
  refine ⟨by decide, ?_⟩
  have h := (ct_conversion_roundtrip 59 (by decide)).1
  exact_mod_cast h

/-- C7: packing an RGB triple with components in 0..255 as
`(r << 16) + (g << 8) + b` and unpacking with the masks
`0xff0000 >> 16`, `0x00ff00 >> 8`, `0x0000ff` returns the original
triple. -/
theorem rgb_pack_unpack_roundtrip (r g b : Nat)
    (hr : r ≤ 255) (hg : g ≤ 255) (hb : b ≤ 255) :
    unpackR (packRGB r g b) = r ∧ unpackG (packRGB r g b) = g ∧
    unpackB (packRGB r g b) = b := by
  have e16 : (2 : Nat) ^ 16 = 65536 := by norm_num
  have e8 : (2 : Nat) ^ 8 = 256 := by norm_num
  have hpack : packRGB r g b = r * 65536 + g * 256 + b := by
    unfold packRGB
    rw [Nat.shiftLeft_eq, Nat.shiftLeft_eq, e16, e8]
  refine ⟨?_, ?_, ?_⟩
  · unfold unpackR
    rw [show (0xff0000 : Nat) = (2 ^ 8 - 1) <<< 16 from by decide,
      and_mask_shift, Nat.shiftLeft_eq, Nat.shiftRight_eq_div_pow,
      Nat.shiftRight_eq_div_pow, e16, e8, hpack]
    omega
  · unfold unpackG
    rw [show (0x00ff00 : Nat) = (2 ^ 8 - 1) <<< 8 from by decide,
      and_mask_shift, Nat.shiftLeft_eq, Nat.shiftRight_eq_div_pow,
      Nat.shiftRight_eq_div_pow, e8, hpack]
    omega
  · unfold unpackB
    rw [show (0x0000ff : Nat) = 2 ^ 8 - 1 from by decide,
      Nat.and_pow_two_sub_one_eq_mod, e8, hpack]
    omega

/-- C7 (witness): the round trip at the triple (12, 200, 7). -/
theorem rgb_pack_unpack_roundtrip_witness :
    unpackR (packRGB 12 200 7) = 12 ∧ unpackG (packRGB 12 200 7) = 200 ∧
    unpackB (packRGB 12 200 7) = 7 :=
  rgb_pack_unpack_roundtrip 12 200 7 (by decide) (by decide) (by decide)

/-- C8: a fan-speed write of 60 is quantised to 50 and mapped to device
mode 2; with a cached mode other than 2 it sends exactly that one
command and on success the cache becomes 2, whose hub-domain value is 50
(and 50, unlike 60, is among the RotationSpeed characteristic's
registered valid values); hub speeds 1-75 map to mode 2 ("intermittent")
and 76-100 to mode 1 ("continuous"); the inverse map yields only the
fixed representatives 0, 100 and 50. -/
theorem fanspeed_quantization (cs : Nat) (res : Response) :
    quantizeSpeed 60 = 50 ∧
    hk2mr (quantizeSpeed 60) = 2 ∧
    (cs ≠ 2 →
      (internalFanSpeedUpdate 60 cs (SendOutcome.ok res)).sent =
        [Payload.spray { mode := 2, channel := 0 }] ∧
      (internalFanSpeedUpdate 60 cs (SendOutcome.ok res)).cacheAfter = 2 ∧
      mr2hk
        (internalFanSpeedUpdate 60 cs (SendOutcome.ok res)).cacheAfter =
        50) ∧
    quantizeSpeed 60 ∈ rotationSpeedValidValues ∧
    (60 : Nat) ∉ rotationSpeedValidValues ∧
    (∀ s, 1 ≤ s → s ≤ 75 → hk2mr s = 2 ∧ hk2Label s = "intermittent") ∧
    (∀ s, 76 ≤ s → s ≤ 100 → hk2mr s = 1 ∧ hk2Label s = "continuous") ∧
    mr2hk 0 = 0 ∧ mr2hk 1 = 100 ∧ mr2hk 2 = 50 := by
  refine ⟨rfl, rfl, fun h => ?_, by decide, by decide, ?_, ?_, rfl, rfl,
    rfl⟩
  · have h2 : (2 : ℕ) ≠ cs := fun hc => h hc.symm
    refine ⟨?_, ?_, ?_⟩ <;>
      simp [internalFanSpeedUpdate, quantizeSpeed, hk2mr, mr2hk, h2]
  · intro s h1 h2
    have hs : ¬ s = 0 := by omega
    exact ⟨by simp [hk2mr, hs, h2], by simp [hk2Label, hs, h2]⟩
  · intro s h1 h2
    have hs : ¬ s = 0 := by omega
    have hs75 : ¬ s ≤ 75 := by omega
    exact ⟨by simp [hk2mr, hs, hs75], by simp [hk2Label, hs, hs75]⟩

/-- C8 (witness): the fan-speed-60 example from cached mode 0. -/
theorem fanspeed_quantization_witness :
    (internalFanSpeedUpdate 60 0 (SendOutcome.ok okResponse)).sent =
      [Payload.spray { mode := 2, channel := 0 }] ∧
    1 ≤ 60 ∧ 60 ≤ 75 ∧ hk2mr 60 = 2 := by
  have h := fanspeed_quantization 0 okResponse
  exact ⟨(h.2.2.1 (by decide)).1, by decide, by decide,
    (h.2.2.2.2.2.1 60 (by decide) (by decide)).1⟩

/-- C9 (counterexample): the claim says a configured refresh interval of
0 disables periodic polling for every device.  The humidifier
constructor calls `setInterval` unconditionally, so with interval 0 a
periodic timer is still installed (with delay 0). -/
theorem humidifier_timer_at_zero_interval :
    (humidifierSchedule 0).pollTimer = some 0 ∧
    (humidifierSchedule 0).pollTimer ≠ none := by decide

/-- C9 (amended): both constructors poll once at startup.  The lightbulb
installs the periodic poll timer exactly when the configured refresh
rate is strictly positive; the humidifier installs it unconditionally,
with period `pollInterval * 1000` ms. -/
theorem poll_scheduling (rate : Nat) :
    (lightbulbSchedule rate).startupPoll = true ∧
    ((lightbulbSchedule rate).pollTimer ≠ none ↔ 0 < rate) ∧
    (0 < rate → (lightbulbSchedule rate).pollTimer = some (rate * 1000)) ∧
    (humidifierSchedule rate).startupPoll = true ∧
    (humidifierSchedule rate).pollTimer = some (rate * 1000) := by
  refine ⟨rfl, ?_, fun h => ?_, rfl, rfl⟩ <;>
    simp [lightbulbSchedule] <;> omega

/-- C9 (witness): with refresh rate 30 the lightbulb installs a 30000 ms
timer. -/
theorem poll_scheduling_witness :
    0 < 30 ∧ (lightbulbSchedule 30).pollTimer = some 30000 :=
  ⟨by decide, by simpa using (poll_scheduling 30).2.2.1 (by decide)⟩

/-- C10: a fan power-on write that passes the no-op check sends spray
mode `max(cacheFanSpeed, 1)`, which is never the off mode 0 and equals
the cached speed whenever one (≥ 1) is set; a power-off write sends
mode 0. -/
theorem fan_on_resumes_running_mode (cacheFanSpeed : Nat)
    (outcome : SendOutcome) :
    (internalFanStateUpdate true false cacheFanSpeed outcome).sent =
      [Payload.spray { mode := max cacheFanSpeed 1, channel := 0 }] ∧
    max cacheFanSpeed 1 ≠ 0 ∧
    (1 ≤ cacheFanSpeed → max cacheFanSpeed 1 = cacheFanSpeed) ∧
    (internalFanStateUpdate false true cacheFanSpeed outcome).sent =
      [Payload.spray { mode := 0, channel := 0 }] := by
  refine ⟨?_, by omega, fun h => by omega, ?_⟩ <;>
    · unfold internalFanStateUpdate
      cases outcome <;> simp [failResult]

/-- C10 (witness): power-on with cached speed 2 sends mode 2. -/
theorem fan_on_resumes_running_mode_witness :
    (internalFanStateUpdate true false 2 (SendOutcome.ok okResponse)).sent =
      [Payload.spray { mode := 2, channel := 0 }] ∧ max 2 1 = 2 := by
  have h := fan_on_resumes_running_mode 2 (SendOutcome.ok okResponse)
  exact ⟨by simpa using h.1, h.2.2.1 (by decide)⟩

end Meross
